import Mathlib

/-
Shallow embedding of the avatar/TTS wrapper scripts:
  src/video/video_generation.py  (HeyGen avatar video generation)
  src/audio/tts_generation.py    (Google Cloud text-to-speech wrapper)

External effects (environment variables, the filesystem, HTTP endpoints) are
modelled by an explicit environment record; every network request the code
would issue is recorded in a trace of `NetCall` events so that claims about
"no request is made" or "the upload is sent with content type X" can be
stated.  Python dict results become a `ResultDict` record whose `Option`
fields mark which keys are present.  Python truthiness of optional strings
(`if not x:` treating both absence and `""` as false) is `truthy`.
-/

/- Constants from src/video/video_generation.py lines 18-26. -/

def DEFAULT_AVATAR_ID : String := "Annie_expressive10_public"

def DEFAULT_VOICE_ID : String := "1bd001e7e50f421d891986aad5158bc8"

def DEFAULT_BACKGROUND : String := "newsroom"

def DEFAULT_BACKGROUND_COLOR : String := "#1a2332"

/-- Python truthiness for an optional string: `None` and `""` are falsy. -/
def truthy : Option String → Bool
  | none => false
  | some s => s != ""

/-- A JSON result object as emitted by the wrappers.  `status` is always
present; every other key is optional (`none` = key absent from the dict). -/
structure ResultDict where
  status : String
  message : Option String := none
  details : Option String := none
  video_id : Option String := none
  video_path : Option String := none
  video_url : Option String := none
  callback_url : Option String := none
  check_url : Option String := none
  duration : Option Nat := none
  audio_path : Option String := none
  provider : Option String := none
  voice : Option String := none
  deriving Repr, DecidableEq

/-- `{"status": "error", "message": msg}` -/
def errResult (msg : String) : ResultDict :=
  { status := "error", message := some msg }

/-- The PNG signature bytes checked at video_generation.py line 102
(`\x89PNG\r\n\x1a\n`). -/
def pngMagic : List Nat := [0x89, 0x50, 0x4E, 0x47, 0x0D, 0x0A, 0x1A, 0x0A]

/-- Python `s.lower()` on the characters of a string. -/
def pyLower (s : String) : List Char := s.data.map Char.toLower

/-- Python `background_image.lower().endswith(".png")`
(video_generation.py line 100). -/
def endsWithDotPng (s : String) : Bool :=
  (pyLower s).reverse.take 4 == ['g', 'n', 'p', '.']

/-- Content-type sniffing for a local background image,
video_generation.py lines 98-103: start from `image/jpeg`; only when the
lower-cased path ends in `.png` AND the first 8 bytes are the PNG signature
does it become `image/png`. -/
def detectContentType (path : String) (bytes : List Nat) : String :=
  if endsWithDotPng path && (bytes.take 8 == pngMagic) then
    "image/png"
  else
    "image/jpeg"

/-- The `background` entry of the submitted video payload. -/
inductive BgConfig where
  | color (value : String)
  | image (url : String)
  deriving Repr, DecidableEq

/-- One network request issued by the code, in order. -/
inductive NetCall where
  | uploadAsset (contentType : String)
  | createVideo (bg : BgConfig)
  | statusCheck (attempt : Nat)
  | downloadVideo
  deriving Repr, DecidableEq

/-- The `data` object of a status poll response
(`status_response.json().get("data", {})`). -/
structure StatusData where
  status : Option String := none
  video_url : Option String := none
  error : Option String := none
  duration : Option Nat := none
  deriving Repr, DecidableEq

/-- Outcome of one status check in `generate_avatar_video_from_text`
(lines 216-218): the GET / `raise_for_status` / `.json()` either raises
(no local handler, so the exception escapes to the outer `except`) or
produces a data object. -/
inductive FTPollResp where
  | raises (msg : String)
  | data (d : StatusData)
  deriving Repr, DecidableEq

/-- Outcome of one status check in `generate_avatar_video` (lines 382-393):
`requests.Timeout` and `requests.RequestException` are caught and the loop
continues; any other exception escapes; otherwise a data object. -/
inductive AVPollResp where
  | timeout
  | reqError (msg : String)
  | raises (msg : String)
  | data (d : StatusData)
  deriving Repr, DecidableEq

/-- An asset-upload response: `url` is `data.url` (absent when missing),
`raw` stands for the full response body (used in `details`). -/
structure UploadResp where
  url : Option String := none
  raw : String := ""
  deriving Repr, DecidableEq

/-- A video-create response: `video_id` is `data.video_id`, `raw` the full
body. -/
structure CreateResp where
  video_id : Option String := none
  raw : String := ""
  deriving Repr, DecidableEq

/-- The external world seen by one invocation of the HeyGen wrapper:
the `HEYGEN_API_KEY` variable, `os.path.isfile` / file contents, and the
responses of each HTTP endpoint.  `Except.error msg` means the call raised
an exception rendering as `msg`.  Poll responses are indexed by the
(1-based) attempt counter. -/
structure Env where
  apiKey : Option String
  isFile : String → Bool
  fileBytes : String → List Nat
  uploadResp : Except String UploadResp
  audioRead : Except String Unit
  createResp : Except String CreateResp
  pollFT : Nat → FTPollResp
  pollAV : Nat → AVPollResp
  download : Except String Unit

/-- Handling of a `"completed"` poll status, video_generation.py
lines 223-250 (and identically 398-423): if `data.video_url` is missing or
empty return an error dict; otherwise download the URL (a download failure
raises, reaching the outer `except`, hence an error dict with the raised
message); a successful download yields the success dict. -/
def completedCase (dl : Except String Unit) (outputPath videoId : String)
    (d : StatusData) (calls : List NetCall) : ResultDict × List NetCall :=
  if truthy d.video_url then
    match dl with
    | .error msg => (errResult msg, calls ++ [NetCall.downloadVideo])
    | .ok _ =>
        ({ status := "success", video_path := some outputPath,
           video_url := some (d.video_url.getD ""), video_id := some videoId,
           duration := some (d.duration.getD 0) },
         calls ++ [NetCall.downloadVideo])
  else
    (errResult "Video completed but no URL provided", calls)

/-- The polling loop of `generate_avatar_video_from_text`, lines 212-261:
`while attempt < max_attempts` with no exception handling around the status
check; on exhaustion returns the bare timeout error of lines 258-261 (note:
no `video_id` key).  `fuel` is the number of attempts remaining,
`attempt` the attempts already made. -/
def pollLoopFT (env : Env) (outputPath videoId : String) :
    Nat → Nat → List NetCall → ResultDict × List NetCall
  | 0, _, calls => (errResult "Video generation timed out", calls)
  | fuel+1, attempt, calls =>
    let a := attempt + 1
    let calls2 := calls ++ [NetCall.statusCheck a]
    match env.pollFT a with
    | .raises msg => (errResult msg, calls2)
    | .data d =>
      if d.status == some "completed" then
        completedCase env.download outputPath videoId d calls2
      else if d.status == some "failed" then
        (errResult ("Video generation failed: " ++ d.error.getD "Unknown error"), calls2)
      else
        pollLoopFT env outputPath videoId fuel a calls2

/-- The timeout result of `generate_avatar_video`, lines 433-438: the
message renders `max_attempts * 5 / 60` with `max_attempts = 240`,
i.e. `20.0`, and the dict carries `video_id` and a manual `check_url`. -/
def timeoutAV (videoId : String) : ResultDict :=
  { status := "error",
    message := some "Video generation timed out after 20.0 minutes. Video may still be processing.",
    video_id := some videoId,
    check_url := some ("https://app.heygen.com/videos/" ++ videoId) }

/-- The polling loop of `generate_avatar_video`, lines 378-438: a
`requests.Timeout` or `requests.RequestException` from the status check is
caught and the loop continues to the next attempt; any other exception
escapes to the outer `except`. -/
def pollLoopAV (env : Env) (outputPath videoId : String) :
    Nat → Nat → List NetCall → ResultDict × List NetCall
  | 0, _, calls => (timeoutAV videoId, calls)
  | fuel+1, attempt, calls =>
    let a := attempt + 1
    let calls2 := calls ++ [NetCall.statusCheck a]
    match env.pollAV a with
    | .timeout => pollLoopAV env outputPath videoId fuel a calls2
    | .reqError _ => pollLoopAV env outputPath videoId fuel a calls2
    | .raises msg => (errResult msg, calls2)
    | .data d =>
      if d.status == some "completed" then
        completedCase env.download outputPath videoId d calls2
      else if d.status == some "failed" then
        (errResult ("Video generation failed: " ++ d.error.getD "Unknown error"), calls2)
      else
        pollLoopAV env outputPath videoId fuel a calls2

/-- Job submission and what follows it in `generate_avatar_video_from_text`,
lines 184-261: POST the create request (an exception escapes to the outer
`except`), check `data.video_id` (lines 188-193), return the webhook
`processing` dict without polling when a callback URL was supplied
(lines 198-205), otherwise poll with `max_attempts = 240`. -/
def submitAndPoll (env : Env) (outputPath : String) (bg : BgConfig)
    (callbackUrl : Option String) (calls0 : List NetCall) :
    ResultDict × List NetCall :=
  let calls1 := calls0 ++ [NetCall.createVideo bg]
  match env.createResp with
  | .error msg => (errResult msg, calls1)
  | .ok cr =>
    if !(truthy cr.video_id) then
      ({ status := "error", message := some "Failed to create video",
         details := some cr.raw }, calls1)
    else if truthy callbackUrl then
      ({ status := "processing", video_id := some (cr.video_id.getD ""),
         message := some "Video is processing. Will notify webhook when complete.",
         callback_url := callbackUrl }, calls1)
    else
      pollLoopFT env outputPath (cr.video_id.getD "") 240 0 calls1

/-- `generate_avatar_video_from_text`, video_generation.py lines 33-268.
Background resolution (lines 81-144): `"newsroom"` wins over everything;
otherwise a truthy `background_image` is uploaded when it is a local file
(content type sniffed by `detectContentType`; a missing `data.url` in the
upload response falls back to the default colour, lines 117-122) or used
directly as a URL; otherwise the `background` string is used as a colour
(both the `startswith("#")` branch and the final `else` build the same
colour dict). -/
def generate_avatar_video_from_text (env : Env)
    (text outputPath avatarId voiceId background : String)
    (backgroundImage : Option String) (callbackUrl : Option String) :
    ResultDict × List NetCall :=
  if !(truthy env.apiKey) then
    (errResult "HEYGEN_API_KEY not set in environment", [])
  else if background == "newsroom" then
    submitAndPoll env outputPath (.color DEFAULT_BACKGROUND_COLOR) callbackUrl []
  else if truthy backgroundImage then
    let img := backgroundImage.getD ""
    if env.isFile img then
      let ct := detectContentType img (env.fileBytes img)
      match env.uploadResp with
      | .error msg => (errResult msg, [NetCall.uploadAsset ct])
      | .ok ur =>
        if !(truthy ur.url) then
          submitAndPoll env outputPath (.color DEFAULT_BACKGROUND_COLOR)
            callbackUrl [NetCall.uploadAsset ct]
        else
          submitAndPoll env outputPath (.image (ur.url.getD ""))
            callbackUrl [NetCall.uploadAsset ct]
    else
      submitAndPoll env outputPath (.image img) callbackUrl []
  else if background.startsWith "#" then
    submitAndPoll env outputPath (.color background) callbackUrl []
  else
    submitAndPoll env outputPath (.color background) callbackUrl []

/-- `generate_avatar_video`, video_generation.py lines 271-445: read the
audio file (an open/read failure raises to the outer `except`), upload it
with content type `audio/mpeg`, fail with a `details` dict when the upload
response has no `data.url`, submit the create request with a plain colour
background, then poll with the transient-error-tolerant loop. -/
def generate_avatar_video (env : Env)
    (audioPath outputPath avatarId background : String) :
    ResultDict × List NetCall :=
  if !(truthy env.apiKey) then
    (errResult "HEYGEN_API_KEY not set in environment", [])
  else
    match env.audioRead with
    | .error msg => (errResult msg, [])
    | .ok _ =>
      match env.uploadResp with
      | .error msg => (errResult msg, [NetCall.uploadAsset "audio/mpeg"])
      | .ok ur =>
        if !(truthy ur.url) then
          ({ status := "error", message := some "Failed to upload audio file",
             details := some ur.raw }, [NetCall.uploadAsset "audio/mpeg"])
        else
          let calls1 := [NetCall.uploadAsset "audio/mpeg",
                         NetCall.createVideo (.color background)]
          match env.createResp with
          | .error msg => (errResult msg, calls1)
          | .ok cr =>
            if !(truthy cr.video_id) then
              ({ status := "error", message := some "Failed to create video",
                 details := some cr.raw }, calls1)
            else
              pollLoopAV env outputPath (cr.video_id.getD "") 240 0 calls1

/- ------------------------------------------------------------------ -/
/- The stdin-JSON entry point of video_generation.py (main, lines 450-505)  -/

/-- What a wrapper process puts on stdout, or an unhandled crash. -/
inductive ProcOutcome where
  | emitted (r : ResultDict)
  | crashed (msg : String)
  deriving Repr, DecidableEq

/-- Which branch of the stdin-JSON dispatch in `main` ran: observable
instrumentation recording which generation function (if any) was invoked. -/
inductive Dispatch where
  | fromText
  | audioMode
  | noInput
  | parseError
  deriving Repr, DecidableEq

/-- The string-valued fields `main` reads from the parsed stdin JSON
(video_generation.py lines 461-467); `none` = key absent. -/
structure VideoFields where
  text : Option String := none
  audio_path : Option String := none
  output_path : Option String := none
  avatar_id : Option String := none
  background : Option String := none
  background_image : Option String := none
  voice_id : Option String := none
  deriving Repr, DecidableEq

/-- Stdin contents for the video wrapper: either malformed JSON (the
`json.JSONDecodeError` message) or a parsed object. -/
inductive StdinJson where
  | malformed (msg : String)
  | parsed (f : VideoFields)
  deriving Repr, DecidableEq

/-- The stdin-JSON branch of video_generation.py `main`, lines 456-505:
malformed JSON is caught at line 496 and emitted as an error dict; a truthy
`text` field dispatches to `generate_avatar_video_from_text` (note: no
callback URL is passed), else a truthy `audio_path` dispatches to
`generate_avatar_video`, else the "No text or audio_path provided" error. -/
def video_main_stdin (env : Env) (j : StdinJson) : ProcOutcome × Dispatch :=
  match j with
  | .malformed msg =>
      (.emitted (errResult ("Invalid JSON input: " ++ msg)), .parseError)
  | .parsed f =>
    let text := f.text.getD ""
    let audioPath := f.audio_path.getD ""
    let outputPath := f.output_path.getD "output.mp4"
    let avatarId := f.avatar_id.getD "Annie_expressive10_public"
    let background := f.background.getD "newsroom"
    let voiceId := f.voice_id.getD "1bd001e7e50f421d891986aad5158bc8"
    if text != "" then
      (.emitted (generate_avatar_video_from_text env text outputPath avatarId
          voiceId background f.background_image none).fst,
       .fromText)
    else if audioPath != "" then
      (.emitted (generate_avatar_video env audioPath outputPath avatarId
          background).fst,
       .audioMode)
    else
      (.emitted (errResult "No text or audio_path provided"), .noInput)

/- ------------------------------------------------------------------ -/
/- src/audio/tts_generation.py                                        -/

/-- A Python exception as far as `generate_audio`'s handlers distinguish
them: `except ImportError` vs the catch-all `except Exception`. -/
inductive PyExc where
  | importError (msg : String)
  | otherError (msg : String)
  deriving Repr, DecidableEq

/-- The external world of one TTS invocation.  `libAvailable` is whether
`google.cloud.texttospeech` can be imported — tts_generation.py imports it
at module level (line 11), so when it is unavailable the script dies before
`main` or `generate_audio` ever run.  `bodyOutcome` is the combined outcome
of the client construction, synthesis call and file write inside
`generate_audio`'s `try`. -/
structure TtsEnv where
  libAvailable : Bool
  bodyOutcome : Except PyExc Unit

/-- `generate_audio`, tts_generation.py lines 15-77: on success returns the
success dict with the resolved voice (line 35-36: a falsy `voice` defaults
to `"en-US-Neural2-F"`); an `ImportError` raised inside the `try` maps to
the fixed missing-dependency message (lines 68-72); any other exception maps
to an error dict carrying its message (lines 73-77). -/
def generate_audio (env : TtsEnv) (text outputPath : String)
    (voice : Option String) : ResultDict :=
  match env.bodyOutcome with
  | .error (.importError _) =>
      errResult "Google Cloud TTS library not installed. Run: poetry add google-cloud-texttospeech"
  | .error (.otherError m) => errResult m
  | .ok _ =>
      let v := if truthy voice then voice.getD "" else "en-US-Neural2-F"
      { status := "success", audio_path := some outputPath,
        provider := some "google", voice := some v }

/-- The stdin JSON fields read by tts_generation.py `main` (lines 90-93). -/
structure TtsFields where
  text : Option String := none
  output_path : Option String := none
  voice : Option String := none
  deriving Repr, DecidableEq

/-- Stdin contents for the TTS wrapper. -/
inductive TtsStdin where
  | malformed (msg : String)
  | parsed (f : TtsFields)
  deriving Repr, DecidableEq

/-- The stdin-JSON branch of tts_generation.py `main`, lines 86-114:
malformed JSON is caught at line 105 and emitted as an error dict; an empty
`text` yields the "No text provided" error; otherwise `generate_audio`
runs and its result is emitted. -/
def tts_main_stdin (env : TtsEnv) (j : TtsStdin) : ProcOutcome :=
  match j with
  | .malformed msg =>
      .emitted (errResult ("Invalid JSON input: " ++ msg))
  | .parsed f =>
    let text := f.text.getD ""
    if text == "" then
      .emitted (errResult "No text provided")
    else
      .emitted (generate_audio env text (f.output_path.getD "output.mp3") f.voice)

/-- The rendered message of the unhandled exception raised by line 11 of
tts_generation.py when the client library is absent. -/
def importCrashMsg : String :=
  "ModuleNotFoundError: No module named google.cloud"

/-- Running the tts_generation.py script as a whole: the module-level
`from google.cloud import texttospeech` (line 11) executes before anything
else, so an unavailable library is an unhandled crash — the `except
ImportError` inside `generate_audio` (line 68) is never reached in that
scenario. -/
def tts_script (env : TtsEnv) (j : TtsStdin) : ProcOutcome :=
  if !env.libAvailable then
    .crashed importCrashMsg
  else
    tts_main_stdin env j

def isCheck : NetCall → Bool
  | .statusCheck _ => true
  | _ => false

def countChecks (calls : List NetCall) : Nat :=
  calls.countP isCheck

def env_processing : Env :=
  { apiKey := some "key",
    isFile := fun _ => false,
    fileBytes := fun _ => [],
    uploadResp := .ok { url := some "https://cdn.example/a.mp3", raw := "" },
    audioRead := .ok (),
    createResp := .ok { video_id := some "vid123", raw := "" },
    pollFT := fun _ => .data { status := some "processing" },
    pollAV := fun _ => .data { status := some "processing" },
    download := .ok () }

def completedData : StatusData :=
  { status := some "completed", video_url := some "https://cdn.example/v.mp4",
    duration := some 12 }

def env_pngjpg : Env :=
  { apiKey := some "key",
    isFile := fun p => p == "bg.jpg",
    fileBytes := fun _ => pngMagic ++ [0, 0, 0],
    uploadResp := .ok { url := some "https://cdn.example/bg", raw := "" },
    audioRead := .ok (),
    createResp := .ok { video_id := some "vid9", raw := "" },
    pollFT := fun _ => .data completedData,
    pollAV := fun _ => .data completedData,
    download := .ok () }

def env_pngok : Env :=
  { apiKey := some "key",
    isFile := fun p => p == "bg.PNG",
    fileBytes := fun _ => pngMagic ++ [7, 7, 7],
    uploadResp := .ok { url := some "https://cdn.example/bg", raw := "" },
    audioRead := .ok (),
    createResp := .ok { video_id := some "vid9", raw := "" },
    pollFT := fun _ => .data completedData,
    pollAV := fun _ => .data completedData,
    download := .ok () }

def env_nokey : Env :=
  { apiKey := none,
    isFile := fun _ => false,
    fileBytes := fun _ => [],
    uploadResp := .ok { url := some "u", raw := "" },
    audioRead := .ok (),
    createResp := .ok { video_id := some "v", raw := "" },
    pollFT := fun _ => .data completedData,
    pollAV := fun _ => .data completedData,
    download := .ok () }

def env_emptykey : Env :=
  { apiKey := some "",
    isFile := fun _ => false,
    fileBytes := fun _ => [],
    uploadResp := .ok { url := some "u", raw := "" },
    audioRead := .ok (),
    createResp := .ok { video_id := some "v", raw := "" },
    pollFT := fun _ => .data completedData,
    pollAV := fun _ => .data completedData,
    download := .ok () }

def envNoLib : TtsEnv := { libAvailable := false, bodyOutcome := .ok () }

def envTtsBoom : TtsEnv :=
  { libAvailable := true, bodyOutcome := .error (.otherError "API quota exceeded") }

def env_flaky : Env :=
  { apiKey := some "key",
    isFile := fun _ => false,
    fileBytes := fun _ => [],
    uploadResp := .ok { url := some "u", raw := "" },
    audioRead := .ok (),
    createResp := .ok { video_id := some "v", raw := "" },
    pollFT := fun _ => .raises "Connection reset by peer",
    pollAV := fun _ => .timeout,
    download := .ok () }

def env_nourl : Env :=
  { apiKey := some "key",
    isFile := fun p => p == "bg.png",
    fileBytes := fun _ => pngMagic ++ [1],
    uploadResp := .ok { url := none, raw := "{}" },
    audioRead := .ok (),
    createResp := .ok { video_id := some "vid5", raw := "" },
    pollFT := fun _ => .data completedData,
    pollAV := fun _ => .data completedData,
    download := .ok () }

theorem countChecks_append (l1 l2 : List NetCall) :
    countChecks (l1 ++ l2) = countChecks l1 + countChecks l2 :=
  List.countP_append _ _ _

theorem pollLoopFT_timeout (env : Env) (op vid : String)
    (h : ∀ a, ∃ d, env.pollFT a = .data d ∧
      d.status ≠ some "completed" ∧ d.status ≠ some "failed") :
    ∀ (fuel attempt : Nat) (calls : List NetCall),
      (pollLoopFT env op vid fuel attempt calls).fst =
        errResult "Video generation timed out"
  | 0, _, _ => rfl
  | fuel+1, attempt, calls => by
      obtain ⟨d, hd, h1, h2⟩ := h (attempt + 1)
      simp only [pollLoopFT, hd]
      rw [if_neg (by simp [h1]), if_neg (by simp [h2])]
      exact pollLoopFT_timeout env op vid h fuel (attempt + 1) _

theorem pollLoopAV_timeout (env : Env) (op vid : String)
    (h : ∀ a, ∃ d, env.pollAV a = .data d ∧
      d.status ≠ some "completed" ∧ d.status ≠ some "failed") :
    ∀ (fuel attempt : Nat) (calls : List NetCall),
      (pollLoopAV env op vid fuel attempt calls).fst = timeoutAV vid
  | 0, _, _ => rfl
  | fuel+1, attempt, calls => by
      obtain ⟨d, hd, h1, h2⟩ := h (attempt + 1)
      simp only [pollLoopAV, hd]
      rw [if_neg (by simp [h1]), if_neg (by simp [h2])]
      exact pollLoopAV_timeout env op vid h fuel (attempt + 1) _

theorem pollLoopFT_checks_le (env : Env) (op vid : String) :
    ∀ (fuel attempt : Nat) (calls : List NetCall),
      countChecks (pollLoopFT env op vid fuel attempt calls).snd ≤
        countChecks calls + fuel
  | 0, _, calls => Nat.le_add_right _ _
  | fuel+1, attempt, calls => by
      have hc2 : countChecks (calls ++ [NetCall.statusCheck (attempt + 1)]) =
          countChecks calls + 1 := by
        rw [countChecks_append]; rfl
      cases hp : env.pollFT (attempt + 1) with
      | raises msg =>
          simp only [pollLoopFT, hp]
          simp [hc2]
      | data d =>
          simp only [pollLoopFT, hp]
          by_cases h1 : (d.status == some "completed") = true
          · rw [if_pos h1]
            unfold completedCase
            by_cases h3 : truthy d.video_url = true
            · rw [if_pos h3]
              cases env.download <;>
                simp [countChecks_append, hc2, countChecks, isCheck]
            · rw [if_neg h3]
              simp [hc2]
          · rw [if_neg h1]
            by_cases h2 : (d.status == some "failed") = true
            · rw [if_pos h2]; simp [hc2]
            · rw [if_neg h2]
              calc countChecks (pollLoopFT env op vid fuel (attempt+1) _).snd ≤
                    countChecks (calls ++ [NetCall.statusCheck (attempt+1)]) + fuel :=
                  pollLoopFT_checks_le env op vid fuel (attempt+1) _
                _ = countChecks calls + (fuel + 1) := by rw [hc2]; omega

theorem pollLoopAV_checks_le (env : Env) (op vid : String) :
    ∀ (fuel attempt : Nat) (calls : List NetCall),
      countChecks (pollLoopAV env op vid fuel attempt calls).snd ≤
        countChecks calls + fuel
  | 0, _, calls => Nat.le_add_right _ _
  | fuel+1, attempt, calls => by
      have hc2 : countChecks (calls ++ [NetCall.statusCheck (attempt + 1)]) =
          countChecks calls + 1 := by
        rw [countChecks_append]; rfl
      have hrec : countChecks (pollLoopAV env op vid fuel (attempt+1)
            (calls ++ [NetCall.statusCheck (attempt + 1)])).snd ≤
          countChecks calls + (fuel + 1) := by
        calc countChecks (pollLoopAV env op vid fuel (attempt+1) _).snd ≤
              countChecks (calls ++ [NetCall.statusCheck (attempt+1)]) + fuel :=
            pollLoopAV_checks_le env op vid fuel (attempt+1) _
          _ = countChecks calls + (fuel + 1) := by rw [hc2]; omega
      cases hp : env.pollAV (attempt + 1) with
      | timeout => simp only [pollLoopAV, hp]; exact hrec
      | reqError msg => simp only [pollLoopAV, hp]; exact hrec
      | raises msg =>
          simp only [pollLoopAV, hp]
          simp [hc2]
      | data d =>
          simp only [pollLoopAV, hp]
          by_cases h1 : (d.status == some "completed") = true
          · rw [if_pos h1]
            unfold completedCase
            by_cases h3 : truthy d.video_url = true
            · rw [if_pos h3]
              cases env.download <;>
                simp [countChecks_append, hc2, countChecks, isCheck]
            · rw [if_neg h3]
              simp [hc2]
          · rw [if_neg h1]
            by_cases h2 : (d.status == some "failed") = true
            · rw [if_pos h2]; simp [hc2]
            · rw [if_neg h2]; exact hrec

theorem pollLoopFT_snd_ext (env : Env) (op vid : String) :
    ∀ (fuel attempt : Nat) (calls : List NetCall),
      ∃ ext, (pollLoopFT env op vid fuel attempt calls).snd = calls ++ ext
  | 0, _, calls => ⟨[], (List.append_nil calls).symm⟩
  | fuel+1, attempt, calls => by
      cases hp : env.pollFT (attempt + 1) with
      | raises msg =>
          exact ⟨[NetCall.statusCheck (attempt+1)], by simp only [pollLoopFT, hp]⟩
      | data d =>
          simp only [pollLoopFT, hp]
          by_cases h1 : (d.status == some "completed") = true
          · rw [if_pos h1]
            unfold completedCase
            by_cases h3 : truthy d.video_url = true
            · rw [if_pos h3]
              cases env.download with
              | error m =>
                  exact ⟨[NetCall.statusCheck (attempt+1), NetCall.downloadVideo], by simp⟩
              | ok u =>
                  exact ⟨[NetCall.statusCheck (attempt+1), NetCall.downloadVideo], by simp⟩
            · rw [if_neg h3]
              exact ⟨[NetCall.statusCheck (attempt+1)], rfl⟩
          · rw [if_neg h1]
            by_cases h2 : (d.status == some "failed") = true
            · rw [if_pos h2]
              exact ⟨[NetCall.statusCheck (attempt+1)], rfl⟩
            · rw [if_neg h2]
              obtain ⟨ext, hext⟩ :=
                pollLoopFT_snd_ext env op vid fuel (attempt+1)
                  (calls ++ [NetCall.statusCheck (attempt+1)])
              exact ⟨NetCall.statusCheck (attempt+1) :: ext, by
                rw [hext, List.append_assoc]; rfl⟩

theorem pollLoopAV_snd_ext (env : Env) (op vid : String) :
    ∀ (fuel attempt : Nat) (calls : List NetCall),
      ∃ ext, (pollLoopAV env op vid fuel attempt calls).snd = calls ++ ext
  | 0, _, calls => ⟨[], (List.append_nil calls).symm⟩
  | fuel+1, attempt, calls => by
      have hrec := fun c => pollLoopAV_snd_ext env op vid fuel (attempt+1) c
      cases hp : env.pollAV (attempt + 1) with
      | timeout =>
          obtain ⟨ext, hext⟩ := hrec (calls ++ [NetCall.statusCheck (attempt+1)])
          exact ⟨NetCall.statusCheck (attempt+1) :: ext, by
            simp only [pollLoopAV, hp]
            rw [hext, List.append_assoc]; rfl⟩
      | reqError msg =>
          obtain ⟨ext, hext⟩ := hrec (calls ++ [NetCall.statusCheck (attempt+1)])
          exact ⟨NetCall.statusCheck (attempt+1) :: ext, by
            simp only [pollLoopAV, hp]
            rw [hext, List.append_assoc]; rfl⟩
      | raises msg =>
          exact ⟨[NetCall.statusCheck (attempt+1)], by simp only [pollLoopAV, hp]⟩
      | data d =>
          simp only [pollLoopAV, hp]
          by_cases h1 : (d.status == some "completed") = true
          · rw [if_pos h1]
            unfold completedCase
            by_cases h3 : truthy d.video_url = true
            · rw [if_pos h3]
              cases env.download with
              | error m =>
                  exact ⟨[NetCall.statusCheck (attempt+1), NetCall.downloadVideo], by simp⟩
              | ok u =>
                  exact ⟨[NetCall.statusCheck (attempt+1), NetCall.downloadVideo], by simp⟩
            · rw [if_neg h3]
              exact ⟨[NetCall.statusCheck (attempt+1)], rfl⟩
          · rw [if_neg h1]
            by_cases h2 : (d.status == some "failed") = true
            · rw [if_pos h2]
              exact ⟨[NetCall.statusCheck (attempt+1)], rfl⟩
            · rw [if_neg h2]
              obtain ⟨ext, hext⟩ := hrec (calls ++ [NetCall.statusCheck (attempt+1)])
              exact ⟨NetCall.statusCheck (attempt+1) :: ext, by
                rw [hext, List.append_assoc]; rfl⟩

theorem submitAndPoll_callback (env : Env) (op : String) (bg : BgConfig)
    (cb : Option String) (calls0 : List NetCall) (cr : CreateResp)
    (hc : env.createResp = .ok cr)
    (hv : truthy cr.video_id = true)
    (hcb : truthy cb = true) :
    submitAndPoll env op bg cb calls0 =
      ({ status := "processing", video_id := some (cr.video_id.getD ""),
         message := some "Video is processing. Will notify webhook when complete.",
         callback_url := cb },
       calls0 ++ [NetCall.createVideo bg]) := by
  simp only [submitAndPoll, hc, hv, hcb]
  rfl

theorem submitAndPoll_timeout (env : Env) (op : String) (bg : BgConfig)
    (cb : Option String) (calls0 : List NetCall) (cr : CreateResp)
    (hc : env.createResp = .ok cr)
    (hv : truthy cr.video_id = true)
    (hcb : truthy cb = false)
    (hft : ∀ a, ∃ d, env.pollFT a = .data d ∧
      d.status ≠ some "completed" ∧ d.status ≠ some "failed") :
    (submitAndPoll env op bg cb calls0).fst =
      errResult "Video generation timed out" := by
  simp only [submitAndPoll, hc, hv, hcb]
  simpa using pollLoopFT_timeout env op (cr.video_id.getD "") hft 240 0 _

theorem submitAndPoll_checks_le (env : Env) (op : String) (bg : BgConfig)
    (cb : Option String) (calls0 : List NetCall) :
    countChecks (submitAndPoll env op bg cb calls0).snd ≤
      countChecks calls0 + 240 := by
  have hc1 : countChecks (calls0 ++ [NetCall.createVideo bg]) = countChecks calls0 := by
    rw [countChecks_append]; rfl
  unfold submitAndPoll
  cases env.createResp with
  | error m => simp [hc1]
  | ok cr =>
    by_cases hv : truthy cr.video_id = true
    · simp only [hv]
      by_cases hcb : truthy cb = true
      · simp [hcb, hc1]
      · simp only [Bool.not_eq_true] at hcb
        simp only [hcb]
        calc countChecks (pollLoopFT env op (cr.video_id.getD "") 240 0
                (calls0 ++ [NetCall.createVideo bg])).snd ≤
              countChecks (calls0 ++ [NetCall.createVideo bg]) + 240 :=
            pollLoopFT_checks_le env op _ 240 0 _
          _ = countChecks calls0 + 240 := by rw [hc1]
    · simp only [Bool.not_eq_true] at hv
      simp [hv, hc1]

theorem submitAndPoll_snd_ext (env : Env) (op : String) (bg : BgConfig)
    (cb : Option String) (calls0 : List NetCall) :
    ∃ ext, (submitAndPoll env op bg cb calls0).snd =
      calls0 ++ NetCall.createVideo bg :: ext := by
  unfold submitAndPoll
  cases env.createResp with
  | error m => exact ⟨[], by simp⟩
  | ok cr =>
    by_cases hv : truthy cr.video_id = true
    · simp only [hv]
      by_cases hcb : truthy cb = true
      · simp [hcb]
      · simp only [Bool.not_eq_true] at hcb
        simp only [hcb]
        obtain ⟨ext, hext⟩ := pollLoopFT_snd_ext env op (cr.video_id.getD "") 240 0
          (calls0 ++ [NetCall.createVideo bg])
        refine ⟨ext, ?_⟩
        simp only [Bool.not_true, Bool.false_eq_true, if_false, hext, List.append_assoc]
        rfl
    · simp only [Bool.not_eq_true] at hv
      simp only [hv]
      exact ⟨[], by simp⟩

theorem from_text_reaches_submit (env : Env)
    (text op aid vcid background : String) (bgi cb : Option String)
    (ur : UploadResp)
    (hk : truthy env.apiKey = true)
    (hup : env.uploadResp = .ok ur) :
    ∃ bg calls0,
      generate_avatar_video_from_text env text op aid vcid background bgi cb =
        submitAndPoll env op bg cb calls0 ∧
      (calls0 = [] ∨ ∃ ct, calls0 = [NetCall.uploadAsset ct]) := by
  unfold generate_avatar_video_from_text
  rw [hk]
  simp only [Bool.not_true, Bool.false_eq_true, if_false]
  by_cases hbg : (background == "newsroom") = true
  · rw [if_pos hbg]
    exact ⟨_, _, rfl, Or.inl rfl⟩
  · rw [if_neg hbg]
    by_cases hbgi : truthy bgi = true
    · rw [if_pos hbgi]
      by_cases hf : env.isFile (bgi.getD "") = true
      · rw [if_pos hf, hup]
        by_cases hurl : truthy ur.url = true
        · simp only [hurl, Bool.not_true, Bool.false_eq_true, if_false]
          exact ⟨_, _, rfl, Or.inr ⟨_, rfl⟩⟩
        · simp only [Bool.not_eq_true] at hurl
          simp only [hurl, Bool.not_false, if_true]
          exact ⟨_, _, rfl, Or.inr ⟨_, rfl⟩⟩
      · rw [if_neg hf]
        exact ⟨_, _, rfl, Or.inl rfl⟩
    · rw [if_neg hbgi]
      by_cases hh : background.startsWith "#" = true
      · rw [if_pos hh]
        exact ⟨_, _, rfl, Or.inl rfl⟩
      · rw [if_neg hh]
        exact ⟨_, _, rfl, Or.inl rfl⟩

/-- C1 (amended): when the status endpoint never returns a terminal status
(`"completed"` or `"failed"`), both polling operations stop after at most
the fixed maximum of 240 status checks and return a `status="error"` result
whose message describes a timeout.  `generate_avatar_video`'s timeout
result includes the job identifier (`video_id`, plus a manual `check_url`),
but — contrary to the claim as stated — the timeout result of
`generate_avatar_video_from_text` contains no `video_id` at all
(video_generation.py lines 258-261). -/
theorem C1_timeout_bounded (env : Env)
    (text op aid vcid background ap avBg : String) (bgi : Option String)
    (ur : UploadResp) (cr : CreateResp)
    (hk : truthy env.apiKey = true)
    (hup : env.uploadResp = .ok ur)
    (hurl : truthy ur.url = true)
    (hread : env.audioRead = .ok ())
    (hc : env.createResp = .ok cr)
    (hv : truthy cr.video_id = true)
    (hft : ∀ a, ∃ d, env.pollFT a = .data d ∧
      d.status ≠ some "completed" ∧ d.status ≠ some "failed")
    (hav : ∀ a, ∃ d, env.pollAV a = .data d ∧
      d.status ≠ some "completed" ∧ d.status ≠ some "failed") :
    ((generate_avatar_video_from_text env text op aid vcid background bgi none).fst =
        errResult "Video generation timed out") ∧
    ((generate_avatar_video_from_text env text op aid vcid background bgi none).fst.video_id
        = none) ∧
    countChecks (generate_avatar_video_from_text env text op aid vcid background bgi none).snd
        ≤ 240 ∧
    ((generate_avatar_video env ap op aid avBg).fst = timeoutAV (cr.video_id.getD "")) ∧
    ((generate_avatar_video env ap op aid avBg).fst.video_id = some (cr.video_id.getD "")) ∧
    countChecks (generate_avatar_video env ap op aid avBg).snd ≤ 240 := by
  obtain ⟨bg, calls0, heq, hcalls0⟩ :=
    from_text_reaches_submit env text op aid vcid background bgi none ur hk hup
  have hcalls0z : countChecks calls0 = 0 := by
    rcases hcalls0 with h | ⟨ct, h⟩ <;> subst h <;> rfl
  have hft1 : (generate_avatar_video_from_text env text op aid vcid background bgi none).fst =
      errResult "Video generation timed out" := by
    rw [heq]
    exact submitAndPoll_timeout env op bg none calls0 cr hc hv rfl hft
  have hav1 : (generate_avatar_video env ap op aid avBg) =
      pollLoopAV env op (cr.video_id.getD "") 240 0
        [NetCall.uploadAsset "audio/mpeg", NetCall.createVideo (.color avBg)] := by
    unfold generate_avatar_video
    rw [hk, hread, hup, hc]
    simp only [hurl, hv, Bool.not_true, Bool.false_eq_true, if_false]
  refine ⟨hft1, by rw [hft1]; rfl, ?_, ?_, ?_, ?_⟩
  · rw [heq]
    calc countChecks (submitAndPoll env op bg none calls0).snd ≤
          countChecks calls0 + 240 := submitAndPoll_checks_le env op bg none calls0
      _ = 240 := by rw [hcalls0z]
  · rw [hav1]
    exact pollLoopAV_timeout env op (cr.video_id.getD "") hav 240 0 _
  · rw [hav1, pollLoopAV_timeout env op (cr.video_id.getD "") hav 240 0 _]
    rfl
  · rw [hav1]
    exact pollLoopAV_checks_le env op (cr.video_id.getD "") 240 0 _

set_option maxRecDepth 10000 in
/-- C1 counterexample: with every poll returning `"processing"`, the
from-text timeout result carries no `video_id`, refuting the claim as
stated for `generate_avatar_video_from_text`. -/
theorem C1_counterexample :
    (generate_avatar_video_from_text env_processing "hello" "out.mp4"
        DEFAULT_AVATAR_ID DEFAULT_VOICE_ID "newsroom" none none).fst.status = "error" ∧
    (generate_avatar_video_from_text env_processing "hello" "out.mp4"
        DEFAULT_AVATAR_ID DEFAULT_VOICE_ID "newsroom" none none).fst.message =
      some "Video generation timed out" ∧
    (generate_avatar_video_from_text env_processing "hello" "out.mp4"
        DEFAULT_AVATAR_ID DEFAULT_VOICE_ID "newsroom" none none).fst.video_id = none := by
  refine ⟨rfl, rfl, rfl⟩

/-- C1 witness: concrete run where every poll returns `"processing"`. -/
theorem C1_witness :
    (generate_avatar_video_from_text env_processing "hello" "out.mp4"
        DEFAULT_AVATAR_ID DEFAULT_VOICE_ID "newsroom" none none).fst =
      errResult "Video generation timed out" ∧
    (generate_avatar_video env_processing "a.mp3" "out.mp4"
        DEFAULT_AVATAR_ID "newsroom").fst = timeoutAV "vid123" := by
  have h := C1_timeout_bounded env_processing "hello" "out.mp4" DEFAULT_AVATAR_ID
    DEFAULT_VOICE_ID "newsroom" "a.mp3" "newsroom" none
    { url := some "https://cdn.example/a.mp3", raw := "" }
    { video_id := some "vid123", raw := "" }
    rfl rfl rfl rfl rfl rfl
    (fun a => ⟨{ status := some "processing" }, rfl, by simp, by simp⟩)
    (fun a => ⟨{ status := some "processing" }, rfl, by simp, by simp⟩)
  exact ⟨h.1, h.2.2.2.1⟩

/-- C2 (amended): for a local `background_image` file (with a
non-`"newsroom"` background), the upload request is sent with the content
type computed by `detectContentType`, and that content type is `image/png`
exactly when the lower-cased path ends in `.png` AND the content begins
with the PNG magic bytes; when the extension is not `.png` the upload is
`image/jpeg` regardless of content — the magic-byte check only demotes
mislabelled `.png` files to JPEG, it never promotes PNG content with a
non-`.png` extension. -/
theorem C2_content_type (env : Env)
    (text op aid vcid background img : String) (cb : Option String)
    (hk : truthy env.apiKey = true)
    (hbg : background ≠ "newsroom")
    (himg : img ≠ "")
    (hfile : env.isFile img = true) :
    (∃ rest,
      (generate_avatar_video_from_text env text op aid vcid background (some img) cb).snd =
        NetCall.uploadAsset (detectContentType img (env.fileBytes img)) :: rest) ∧
    (detectContentType img (env.fileBytes img) = "image/png" ↔
      (endsWithDotPng img = true ∧ (env.fileBytes img).take 8 = pngMagic)) ∧
    (endsWithDotPng img = false →
      detectContentType img (env.fileBytes img) = "image/jpeg") := by
  refine ⟨?_, ?_, ?_⟩
  · unfold generate_avatar_video_from_text
    rw [hk]
    simp only [Bool.not_true, Bool.false_eq_true, if_false]
    rw [if_neg (by simp [hbg])]
    have htr : truthy (some img) = true := by simp [truthy, himg]
    rw [if_pos htr]
    simp only [Option.getD_some]
    rw [if_pos hfile]
    cases hup : env.uploadResp with
    | error m => exact ⟨[], rfl⟩
    | ok ur =>
      by_cases hurl : truthy ur.url = true
      · simp only [hurl, Bool.not_true, Bool.false_eq_true, if_false]
        obtain ⟨ext, hext⟩ := submitAndPoll_snd_ext env op
          (.image (ur.url.getD "")) cb [NetCall.uploadAsset (detectContentType img (env.fileBytes img))]
        exact ⟨NetCall.createVideo (.image (ur.url.getD "")) :: ext, hext⟩
      · simp only [Bool.not_eq_true] at hurl
        simp only [hurl, Bool.not_false, if_true]
        obtain ⟨ext, hext⟩ := submitAndPoll_snd_ext env op
          (.color DEFAULT_BACKGROUND_COLOR) cb [NetCall.uploadAsset (detectContentType img (env.fileBytes img))]
        exact ⟨NetCall.createVideo (.color DEFAULT_BACKGROUND_COLOR) :: ext, hext⟩
  · unfold detectContentType
    constructor
    · intro h
      by_cases h1 : (endsWithDotPng img && ((env.fileBytes img).take 8 == pngMagic)) = true
      · simp only [Bool.and_eq_true, beq_iff_eq] at h1
        exact h1
      · rw [if_neg h1] at h
        exact absurd h (by decide)
    · rintro ⟨h1, h2⟩
      rw [if_pos (by simp [h1, h2])]
  · intro h
    unfold detectContentType
    rw [if_neg (by simp [h])]

/-- C2 counterexample -/
theorem C2_counterexample :
    (env_pngjpg.fileBytes "bg.jpg").take 8 = pngMagic ∧
    (generate_avatar_video_from_text env_pngjpg "hi" "out.mp4" DEFAULT_AVATAR_ID
        DEFAULT_VOICE_ID "image" (some "bg.jpg") none).snd.head? =
      some (NetCall.uploadAsset "image/jpeg") ∧
    NetCall.uploadAsset "image/png" ∉
      (generate_avatar_video_from_text env_pngjpg "hi" "out.mp4" DEFAULT_AVATAR_ID
        DEFAULT_VOICE_ID "image" (some "bg.jpg") none).snd := by
  refine ⟨by decide, by decide, by decide⟩

/-- C2 witness: a file named `bg.PNG` whose bytes start with the PNG magic
is uploaded as `image/png`. -/
theorem C2_witness :
    (∃ rest,
      (generate_avatar_video_from_text env_pngok "hi" "out.mp4" DEFAULT_AVATAR_ID
          DEFAULT_VOICE_ID "image" (some "bg.PNG") none).snd =
        NetCall.uploadAsset "image/png" :: rest) := by
  have h := C2_content_type env_pngok "hi" "out.mp4" DEFAULT_AVATAR_ID
    DEFAULT_VOICE_ID "image" "bg.PNG" none rfl (by decide) (by decide) rfl
  have hpng : detectContentType "bg.PNG" (env_pngok.fileBytes "bg.PNG") = "image/png" :=
    h.2.1.mpr ⟨rfl, rfl⟩
  obtain ⟨rest, hrest⟩ := h.1
  exact ⟨rest, by rw [hrest, hpng]⟩

/-- C3: when a truthy callback URL is supplied and job submission returns
a truthy `video_id`, `generate_avatar_video_from_text` returns immediately
with `status="processing"`, the `video_id` and the `callback_url`, and no
status-endpoint request (and no download) is ever made. -/
theorem C3_callback_no_polling (env : Env)
    (text op aid vcid background : String) (bgi cb : Option String)
    (ur : UploadResp) (cr : CreateResp)
    (hk : truthy env.apiKey = true)
    (hup : env.uploadResp = .ok ur)
    (hc : env.createResp = .ok cr)
    (hv : truthy cr.video_id = true)
    (hcb : truthy cb = true) :
    (generate_avatar_video_from_text env text op aid vcid background bgi cb).fst =
      { status := "processing", video_id := some (cr.video_id.getD ""),
        message := some "Video is processing. Will notify webhook when complete.",
        callback_url := cb } ∧
    (∀ a, NetCall.statusCheck a ∉
      (generate_avatar_video_from_text env text op aid vcid background bgi cb).snd) ∧
    NetCall.downloadVideo ∉
      (generate_avatar_video_from_text env text op aid vcid background bgi cb).snd := by
  obtain ⟨bg, calls0, heq, hcalls0⟩ :=
    from_text_reaches_submit env text op aid vcid background bgi cb ur hk hup
  rw [heq, submitAndPoll_callback env op bg cb calls0 cr hc hv hcb]
  refine ⟨rfl, ?_, ?_⟩
  · intro a hmem
    rcases hcalls0 with h | ⟨ct, h⟩ <;> subst h <;> simp at hmem
  · intro hmem
    rcases hcalls0 with h | ⟨ct, h⟩ <;> subst h <;> simp at hmem

/-- C3 witness: concrete run with a webhook URL returns the processing
dict without any status check. -/
theorem C3_witness :
    (generate_avatar_video_from_text env_processing "hello" "out.mp4"
        DEFAULT_AVATAR_ID DEFAULT_VOICE_ID "newsroom" none
        (some "https://hook.example/cb")).fst =
      { status := "processing", video_id := some "vid123",
        message := some "Video is processing. Will notify webhook when complete.",
        callback_url := some "https://hook.example/cb" } ∧
    (∀ a, NetCall.statusCheck a ∉
      (generate_avatar_video_from_text env_processing "hello" "out.mp4"
        DEFAULT_AVATAR_ID DEFAULT_VOICE_ID "newsroom" none
        (some "https://hook.example/cb")).snd) := by
  have h := C3_callback_no_polling env_processing "hello" "out.mp4"
    DEFAULT_AVATAR_ID DEFAULT_VOICE_ID "newsroom" none (some "https://hook.example/cb")
    { url := some "https://cdn.example/a.mp3", raw := "" }
    { video_id := some "vid123", raw := "" }
    rfl rfl rfl rfl rfl
  exact ⟨h.1, h.2.1⟩

/-- C4: in both polling loops a poll response with status `"completed"`
is terminal and hands over to the download step (`completedCase`), status
`"failed"` is terminal with the remote error message propagated into the
returned message, and any other status continues the loop; on
`"completed"`, success is returned only when a video URL is present and
the download succeeds — a missing URL or a failing download yields an
error result. -/
theorem C4_status_classification (env : Env) (op vid : String)
    (fuel attempt : Nat) (calls : List NetCall) (d : StatusData) :
    (env.pollFT (attempt + 1) = .data d →
      ((d.status = some "completed" →
        pollLoopFT env op vid (fuel + 1) attempt calls =
          completedCase env.download op vid d
            (calls ++ [NetCall.statusCheck (attempt + 1)])) ∧
       (d.status = some "failed" →
        pollLoopFT env op vid (fuel + 1) attempt calls =
          (errResult ("Video generation failed: " ++ d.error.getD "Unknown error"),
           calls ++ [NetCall.statusCheck (attempt + 1)])) ∧
       (d.status ≠ some "completed" → d.status ≠ some "failed" →
        pollLoopFT env op vid (fuel + 1) attempt calls =
          pollLoopFT env op vid fuel (attempt + 1)
            (calls ++ [NetCall.statusCheck (attempt + 1)])))) ∧
    (env.pollAV (attempt + 1) = .data d →
      ((d.status = some "completed" →
        pollLoopAV env op vid (fuel + 1) attempt calls =
          completedCase env.download op vid d
            (calls ++ [NetCall.statusCheck (attempt + 1)])) ∧
       (d.status = some "failed" →
        pollLoopAV env op vid (fuel + 1) attempt calls =
          (errResult ("Video generation failed: " ++ d.error.getD "Unknown error"),
           calls ++ [NetCall.statusCheck (attempt + 1)])) ∧
       (d.status ≠ some "completed" → d.status ≠ some "failed" →
        pollLoopAV env op vid (fuel + 1) attempt calls =
          pollLoopAV env op vid fuel (attempt + 1)
            (calls ++ [NetCall.statusCheck (attempt + 1)])))) ∧
    (d.status = some "completed" →
      ((truthy d.video_url = true → env.download = .ok () →
        (completedCase env.download op vid d calls).fst =
          { status := "success", video_path := some op,
            video_url := some (d.video_url.getD ""), video_id := some vid,
            duration := some (d.duration.getD 0) }) ∧
       (truthy d.video_url = false →
        (completedCase env.download op vid d calls).fst =
          errResult "Video completed but no URL provided") ∧
       (∀ m, truthy d.video_url = true → env.download = .error m →
        (completedCase env.download op vid d calls).fst = errResult m))) := by
  refine ⟨?_, ?_, ?_⟩
  · intro hp
    refine ⟨?_, ?_, ?_⟩
    · intro hs
      simp only [pollLoopFT, hp]
      rw [if_pos (by simp [hs])]
    · intro hs
      simp only [pollLoopFT, hp]
      rw [if_neg (by simp [hs]), if_pos (by simp [hs])]
    · intro h1 h2
      simp only [pollLoopFT, hp]
      rw [if_neg (by simp [h1]), if_neg (by simp [h2])]
  · intro hp
    refine ⟨?_, ?_, ?_⟩
    · intro hs
      simp only [pollLoopAV, hp]
      rw [if_pos (by simp [hs])]
    · intro hs
      simp only [pollLoopAV, hp]
      rw [if_neg (by simp [hs]), if_pos (by simp [hs])]
    · intro h1 h2
      simp only [pollLoopAV, hp]
      rw [if_neg (by simp [h1]), if_neg (by simp [h2])]
  · intro _hs
    refine ⟨?_, ?_, ?_⟩
    · intro hu hdl
      unfold completedCase
      rw [if_pos hu, hdl]
    · intro hu
      unfold completedCase
      rw [if_neg (by simp [hu])]
    · intro m hu hdl
      unfold completedCase
      rw [if_pos hu, hdl]

/-- C4 witness: a first poll returning `"completed"` with a URL yields
the success dict via the download step. -/
theorem C4_witness :
    pollLoopFT env_pngjpg "out.mp4" "vid9" 240 0 [] =
      completedCase env_pngjpg.download "out.mp4" "vid9" completedData
        [NetCall.statusCheck 1] ∧
    (completedCase env_pngjpg.download "out.mp4" "vid9" completedData
        [NetCall.statusCheck 1]).fst =
      { status := "success", video_path := some "out.mp4",
        video_url := some "https://cdn.example/v.mp4", video_id := some "vid9",
        duration := some 12 } := by
  have h := C4_status_classification env_pngjpg "out.mp4" "vid9" 239 0 [] completedData
  exact ⟨(h.1 rfl).1 rfl, (h.2.2 rfl).1 rfl rfl⟩

/-- C5: with `HEYGEN_API_KEY` unset or empty (falsy), both HeyGen
operations return the error result naming the missing credential
immediately, with an empty network trace (no request attempted). -/
theorem C5_missing_api_key (env : Env)
    (text op aid vcid background ap avBg : String) (bgi cb : Option String)
    (hk : truthy env.apiKey = false) :
    generate_avatar_video_from_text env text op aid vcid background bgi cb =
      (errResult "HEYGEN_API_KEY not set in environment", []) ∧
    generate_avatar_video env ap op aid avBg =
      (errResult "HEYGEN_API_KEY not set in environment", []) := by
  unfold generate_avatar_video_from_text generate_avatar_video
  rw [hk]
  simp

/-- C5 witness: one run with the variable unset and one with it empty. -/
theorem C5_witness :
    generate_avatar_video_from_text env_nokey "hi" "o.mp4" DEFAULT_AVATAR_ID
        DEFAULT_VOICE_ID "newsroom" none none =
      (errResult "HEYGEN_API_KEY not set in environment", []) ∧
    generate_avatar_video env_emptykey "a.mp3" "o.mp4" DEFAULT_AVATAR_ID "newsroom" =
      (errResult "HEYGEN_API_KEY not set in environment", []) := by
  exact ⟨(C5_missing_api_key env_nokey "hi" "o.mp4" DEFAULT_AVATAR_ID DEFAULT_VOICE_ID
      "newsroom" "a.mp3" "newsroom" none none rfl).1,
    (C5_missing_api_key env_emptykey "hi" "o.mp4" DEFAULT_AVATAR_ID DEFAULT_VOICE_ID
      "newsroom" "a.mp3" "newsroom" none none rfl).2⟩

/-- C6 (code evaluation for the code_bug): with the Google Cloud TTS
library unavailable, running tts_generation.py crashes at the
module-level library load (line 11) instead of emitting the error
dict that `generate_audio`'s `except ImportError` handler (lines 68-72)
was written to produce; the second half of the claim — any other failure
inside `generate_audio` returns an error result carrying the raised
message — does hold. -/
theorem C6_import_crash :
    tts_script envNoLib (.parsed { text := some "hello", output_path := some "o.mp3" }) =
      .crashed importCrashMsg ∧
    tts_script envNoLib (.parsed { text := some "hello", output_path := some "o.mp3" }) ≠
      .emitted (errResult "Google Cloud TTS library not installed. Run: poetry add google-cloud-texttospeech") ∧
    generate_audio envTtsBoom "hello" "o.mp3" none = errResult "API quota exceeded" := by
  refine ⟨rfl, by decide, rfl⟩

/-- C7: exactly one of the two polling call sites tolerates transient
network failures — in `generate_avatar_video`'s loop a `requests.Timeout`
or `requests.RequestException` during a status check continues to the
next attempt, while in `generate_avatar_video_from_text`'s loop any
exception raised by a status check terminates the operation with an error
result. -/
theorem C7_transient_tolerance (env : Env) (op vid : String)
    (fuel attempt : Nat) (calls : List NetCall) (m : String) :
    (env.pollAV (attempt + 1) = .timeout →
      pollLoopAV env op vid (fuel + 1) attempt calls =
        pollLoopAV env op vid fuel (attempt + 1)
          (calls ++ [NetCall.statusCheck (attempt + 1)])) ∧
    (env.pollAV (attempt + 1) = .reqError m →
      pollLoopAV env op vid (fuel + 1) attempt calls =
        pollLoopAV env op vid fuel (attempt + 1)
          (calls ++ [NetCall.statusCheck (attempt + 1)])) ∧
    (env.pollFT (attempt + 1) = .raises m →
      pollLoopFT env op vid (fuel + 1) attempt calls =
        (errResult m, calls ++ [NetCall.statusCheck (attempt + 1)])) := by
  refine ⟨?_, ?_, ?_⟩
  · intro hp
    simp only [pollLoopAV, hp]
  · intro hp
    simp only [pollLoopAV, hp]
  · intro hp
    simp only [pollLoopFT, hp]

/-- C7 witness: a timing-out status check makes the audio-path loop
continue and the from-text loop abort. -/
theorem C7_witness :
    pollLoopAV env_flaky "o.mp4" "v" 240 0 [] =
      pollLoopAV env_flaky "o.mp4" "v" 239 1 [NetCall.statusCheck 1] ∧
    pollLoopFT env_flaky "o.mp4" "v" 240 0 [] =
      (errResult "Connection reset by peer", [NetCall.statusCheck 1]) := by
  have h := C7_transient_tolerance env_flaky "o.mp4" "v" 239 0 []
    "Connection reset by peer"
  exact ⟨h.1 rfl, h.2.2 rfl⟩

/-- C8: when the stdin JSON supplies both a non-empty `text` and a
non-empty `audio_path`, the video wrapper's `main` dispatches to
`generate_avatar_video_from_text` with the given text, and
`generate_avatar_video` is not invoked (the dispatch is `fromText`, not
`audioMode`). -/
theorem C8_text_priority (env : Env) (f : VideoFields)
    (ht : (f.text.getD "" != "") = true)
    (ha : (f.audio_path.getD "" != "") = true) :
    video_main_stdin env (.parsed f) =
      (.emitted (generate_avatar_video_from_text env (f.text.getD "")
          (f.output_path.getD "output.mp4") (f.avatar_id.getD "Annie_expressive10_public")
          (f.voice_id.getD "1bd001e7e50f421d891986aad5158bc8")
          (f.background.getD "newsroom") f.background_image none).fst,
       Dispatch.fromText) ∧
    (video_main_stdin env (.parsed f)).snd ≠ Dispatch.audioMode := by
  constructor
  · simp only [video_main_stdin, ht, if_true]
  · simp only [video_main_stdin, ht, if_true]
    decide

/-- C8 witness: both fields supplied, text wins. -/
theorem C8_witness :
    video_main_stdin env_pngjpg
        (.parsed { text := some "hello world", audio_path := some "a.mp3" }) =
      (.emitted (generate_avatar_video_from_text env_pngjpg "hello world"
          "output.mp4" "Annie_expressive10_public" "1bd001e7e50f421d891986aad5158bc8"
          "newsroom" none none).fst,
       Dispatch.fromText) := by
  exact (C8_text_priority env_pngjpg
    { text := some "hello world", audio_path := some "a.mp3" } rfl rfl).1

/-- C9: for every malformed-JSON stdin input to either wrapper's main
entry point, the emitted result is a JSON object with `status="error"`
whose message names the parse failure, and the outcome is an emitted
result, not a crash. -/
theorem C9_malformed_json (venv : Env) (tenv : TtsEnv) (m : String) :
    (video_main_stdin venv (.malformed m)).fst =
      .emitted (errResult ("Invalid JSON input: " ++ m)) ∧
    tts_main_stdin tenv (.malformed m) =
      .emitted (errResult ("Invalid JSON input: " ++ m)) ∧
    (errResult ("Invalid JSON input: " ++ m)).status = "error" ∧
    (errResult ("Invalid JSON input: " ++ m)).message =
      some ("Invalid JSON input: " ++ m) := by
  exact ⟨rfl, rfl, rfl, rfl⟩

/-- C10: when the background-image upload succeeds but its response has
no `data.url`, `generate_avatar_video_from_text` does not fail: it falls
back to the default background colour `#1a2332` and proceeds with job
submission (the create request appears in the trace right after the
upload). -/
theorem C10_upload_fallback (env : Env)
    (text op aid vcid background img : String) (cb : Option String)
    (ur : UploadResp)
    (hk : truthy env.apiKey = true)
    (hbg : background ≠ "newsroom")
    (himg : img ≠ "")
    (hfile : env.isFile img = true)
    (hup : env.uploadResp = .ok ur)
    (hurl : truthy ur.url = false) :
    generate_avatar_video_from_text env text op aid vcid background (some img) cb =
      submitAndPoll env op (BgConfig.color DEFAULT_BACKGROUND_COLOR) cb
        [NetCall.uploadAsset (detectContentType img (env.fileBytes img))] ∧
    (∃ rest,
      (generate_avatar_video_from_text env text op aid vcid background (some img) cb).snd =
        NetCall.uploadAsset (detectContentType img (env.fileBytes img)) ::
          NetCall.createVideo (BgConfig.color DEFAULT_BACKGROUND_COLOR) :: rest) := by
  have heq : generate_avatar_video_from_text env text op aid vcid background (some img) cb =
      submitAndPoll env op (BgConfig.color DEFAULT_BACKGROUND_COLOR) cb
        [NetCall.uploadAsset (detectContentType img (env.fileBytes img))] := by
    unfold generate_avatar_video_from_text
    rw [hk]
    simp only [Bool.not_true, Bool.false_eq_true, if_false]
    rw [if_neg (by simp [hbg])]
    rw [if_pos (by simp [truthy, himg])]
    simp only [Option.getD_some]
    rw [if_pos hfile, hup]
    simp only [hurl, Bool.not_false, if_true]
  refine ⟨heq, ?_⟩
  rw [heq]
  obtain ⟨ext, hext⟩ := submitAndPoll_snd_ext env op
    (BgConfig.color DEFAULT_BACKGROUND_COLOR) cb
    [NetCall.uploadAsset (detectContentType img (env.fileBytes img))]
  exact ⟨ext, hext⟩

/-- C10 witness: an upload answering `{}` falls back to the default
colour and the run continues into submission. -/
theorem C10_witness :
    generate_avatar_video_from_text env_nourl "hi" "o.mp4" DEFAULT_AVATAR_ID
        DEFAULT_VOICE_ID "image" (some "bg.png") none =
      submitAndPoll env_nourl "o.mp4" (BgConfig.color DEFAULT_BACKGROUND_COLOR) none
        [NetCall.uploadAsset "image/png"] := by
  have h := (C10_upload_fallback env_nourl "hi" "o.mp4" DEFAULT_AVATAR_ID
    DEFAULT_VOICE_ID "image" "bg.png" none { url := none, raw := "{}" }
    rfl (by decide) (by decide) rfl rfl rfl).1
  simpa using h

